import Mathlib

/-!
Verification of the legenda-desktop main-process IPC handlers
(src: electron main handlers, shared DTO declarations).

The filesystem is modelled as the list of paths at which a file exists;
a path is modelled structurally as (directory, base name, extension), so
that the source's path.dirname / path.extname / path.basename /
path.join(dir, base + ext) operations become field projections and
record construction.  Fallible host operations (fs.renameSync,
fs.unlinkSync, fs.copyFileSync, the whisper runner, store persistence)
are injected as explicit outcomes, since the handlers only branch on
whether they throw and on the thrown error's message.
-/

namespace LegendaDesktop

/-- Structural model of an absolute file path: `dir` is the containing
directory, `base` the file name without extension, `ext` the extension
including the dot.  `path.join dir (base ++ ext)` is `⟨dir, base, ext⟩`,
`path.dirname` is `.dir`, `path.extname` is `.ext`,
`path.basename` is `base ++ ext`. -/
structure FsPath where
  dir : String
  base : String
  ext : String
deriving DecidableEq, Repr

/-- The empty string as a path (models a missing `outputPath`). -/
def FsPath.empty : FsPath := ⟨"", "", ""⟩

/-- Model of `path.basename(p)`. -/
def basename (p : FsPath) : String := p.base ++ p.ext

/-- `SubtitleFormat` from the shared DTOs. -/
inductive SubtitleFormat where
  | srt
  | ass
deriving DecidableEq, Repr

/-- `GranularityPreset` from the shared DTOs. -/
inductive Granularity where
  | LOW
  | MEDIUM
  | HIGH
  | ULTRA
deriving DecidableEq, Repr

/-- Progress steps emitted through `emitJobProgress`. -/
inductive Step where
  | PREPARING
  | TRANSCRIBING
  | CONVERTING
  | SAVING
  | DONE
deriving DecidableEq, Repr

/-- `AppErrorDTO` from the shared error declarations. -/
structure AppErrorDTO where
  code : String
  message : String
  details : Option String
  actionHint : Option String
deriving DecidableEq, Repr

/-- A thrown JavaScript error: its `message`, plus the `appError`
payload that `makeErr` attaches (absent on errors thrown by the host:
fs, the runner, the store). -/
structure JsError where
  message : String
  appError : Option AppErrorDTO
deriving DecidableEq, Repr

/-- `makeErr(code, message, details?, actionHint?)` from the handlers
module: builds an `Error` carrying a structured `AppErrorDTO`. -/
def makeErr (code : String) (message : String) (details : Option String)
    (actionHint : Option String) : JsError :=
  { message := message
    appError := some { code := code, message := message, details := details,
                       actionHint := actionHint } }

/-- A parsed subtitle cue (`SegmentPreviewDTO`). -/
structure Cue where
  index : Nat
  startMs : Nat
  endMs : Nat
  text : String
deriving DecidableEq, Repr

/-- `GeneratedFileDTO`: one catalogued artifact record.  The source's
`exists` field is named `fileExists` here (`exists` is reserved).
`language` and `modelId` are `Option String` because the handlers treat
them as possibly absent (`req.language || "pt"`). -/
structure GeneratedItem where
  id : String
  path : FsPath
  fileName : String
  format : SubtitleFormat
  language : Option String
  modelId : Option String
  createdAtISO : String
  fileExists : Bool
deriving DecidableEq, Repr

/-- Events emitted to the renderer window. -/
inductive Event where
  | progress (jobId : String) (step : Step) (message : String)
  | jobDone (jobId : String) (generatedId : String) (path : FsPath)
      (fileName : String) (preview : List Cue)
  | jobError (jobId : String) (error : AppErrorDTO)
  | generatedChanged (reason : String)
deriving DecidableEq, Repr

/-- The candidate probed at attempt `i` by the collision resolver:
`path.join(dir, base ++ " (" ++ i ++ ")" ++ ext)`. -/
def candidate (p : FsPath) (i : Nat) : FsPath :=
  ⟨p.dir, p.base ++ " (" ++ toString i ++ ")", p.ext⟩

/-- `resolveNonCollidingPath(p)` from the handlers module.  `fs` is the
set of paths at which a file exists.  If `p` is free it is returned;
otherwise the loop `for (let i = 1; i < 1000; i++)` returns the first
free candidate `base (i) ext`, and falls back to `p` when all 999
candidates collide. -/
def resolveNonCollidingPath (fs : List FsPath) (p : FsPath) : FsPath :=
  if p ∈ fs then
    match (List.range' 1 999).find? (fun i => candidate p i ∉ fs) with
    | some i => candidate p i
    | none => p
  else p

/-- On `List.range' s n`, `find?` returns the least element of
`[s, s+n)` satisfying the predicate, and `none` exactly when no element
of that interval satisfies it. -/
theorem find?_range'_spec (p : Nat → Bool) :
    ∀ (n s : Nat),
      (∀ i, (List.range' s n).find? p = some i →
        p i = true ∧ s ≤ i ∧ i < s + n ∧ ∀ j, s ≤ j → j < i → p j = false) ∧
      ((List.range' s n).find? p = none →
        ∀ j, s ≤ j → j < s + n → p j = false) := by
  intro n
  induction n with
  | zero =>
    intro s
    refine ⟨fun i h => by simp [List.range'] at h, fun _ j hs hj => ?_⟩
    omega
  | succ m ih =>
    intro s
    have hr : List.range' s (m + 1) = s :: List.range' (s + 1) m := by
      simp [List.range'_succ]
    constructor
    · intro i h
      rw [hr] at h
      by_cases hps : p s = true
      · rw [List.find?_cons_of_pos _ hps] at h
        cases h
        exact ⟨hps, le_refl _, by omega, fun j h1 h2 => by omega⟩
      · have hps' : p s = false := by
          cases hq : p s
          · rfl
          · exact absurd hq hps
        rw [List.find?_cons_of_neg _ (by simp [hps'])] at h
        obtain ⟨hpi, hle, hlt, hmin⟩ := (ih (s + 1)).1 i h
        refine ⟨hpi, by omega, by omega, fun j h1 h2 => ?_⟩
        by_cases hj : j = s
        · rw [hj]; exact hps'
        · exact hmin j (by omega) h2
    · intro h j h1 h2
      rw [hr] at h
      by_cases hps : p s = true
      · rw [List.find?_cons_of_pos _ hps] at h
        exact absurd h (by simp)
      · have hps' : p s = false := by
          cases hq : p s
          · rfl
          · exact absurd hq hps
        rw [List.find?_cons_of_neg _ (by simp [hps'])] at h
        by_cases hj : j = s
        · rw [hj]; exact hps'
        · exact (ih (s + 1)).2 h j (by omega) (by omega)

/-- C3.  When the desired path collides, the resolver returns the first
suffixed candidate `base (i) ext` (1 ≤ i ≤ 999) at which no file
exists, every earlier candidate colliding; if all 999 candidates
collide it returns the original colliding path. -/
theorem resolveNonCollidingPath_spec (fs : List FsPath) (p : FsPath)
    (hcol : p ∈ fs) :
    (∃ i, 1 ≤ i ∧ i ≤ 999 ∧ candidate p i ∉ fs ∧
        resolveNonCollidingPath fs p = candidate p i ∧
        ∀ j, 1 ≤ j → j < i → candidate p j ∈ fs) ∨
      ((∀ i, 1 ≤ i → i ≤ 999 → candidate p i ∈ fs) ∧
        resolveNonCollidingPath fs p = p) := by
  unfold resolveNonCollidingPath
  rw [if_pos hcol]
  rcases hf : (List.range' 1 999).find? (fun i => candidate p i ∉ fs) with _ | i
  · right
    refine ⟨fun i h1 h2 => ?_, rfl⟩
    have := (find?_range'_spec (fun i => candidate p i ∉ fs) 999 1).2 hf i h1
      (by omega)
    simpa using this
  · left
    obtain ⟨hpi, hle, hlt, hmin⟩ :=
      (find?_range'_spec (fun i => candidate p i ∉ fs) 999 1).1 i hf
    refine ⟨i, hle, by omega, by simpa using hpi, rfl, fun j h1 h2 => ?_⟩
    have := hmin j h1 h2
    simpa using this

/-- Closed instance of `resolveNonCollidingPath_spec`: with `out.srt`
and `out (1).srt` both existing, the resolver picks `out (2).srt`. -/
theorem resolveNonCollidingPath_spec_witness :
    (⟨"d", "out", ".srt"⟩ : FsPath) ∈
        [(⟨"d", "out", ".srt"⟩ : FsPath), ⟨"d", "out (1)", ".srt"⟩] ∧
      resolveNonCollidingPath
          [(⟨"d", "out", ".srt"⟩ : FsPath), ⟨"d", "out (1)", ".srt"⟩]
          ⟨"d", "out", ".srt"⟩ = ⟨"d", "out (2)", ".srt"⟩ := by
  refine ⟨by decide, ?_⟩
  rcases resolveNonCollidingPath_spec
      [(⟨"d", "out", ".srt"⟩ : FsPath), ⟨"d", "out (1)", ".srt"⟩]
      ⟨"d", "out", ".srt"⟩ (by decide) with ⟨i, h1, h2, hfree, heq, hmin⟩ | ⟨hall, _⟩
  · rw [heq]
    have hi2 : i = 2 := by
      by_contra hne
      rcases Nat.lt_or_ge i 2 with hlt | hge
      · have : i = 1 := by omega
        rw [this] at hfree
        exact hfree (by decide)
      · have := hmin 2 (by omega) (by omega)
        revert this
        decide
    rw [hi2]
    decide
  · exact absurd (hall 2 (by omega) (by omega)) (by decide)

/-- Modelled from the spec: `GeneratedFilesStore.update(id, mutator)`
(store source not in the repository snapshot) applies the mutator to
the record matching `id` and leaves the others unchanged. -/
def storeUpdate (store : List GeneratedItem) (id : String)
    (f : GeneratedItem → GeneratedItem) : List GeneratedItem :=
  store.map (fun x => if x.id = id then f x else x)

/-- Modelled from the spec: `GeneratedFilesStore.remove(id)` (store
source not in the repository snapshot) deletes the record matching
`id`; a no-op when absent. -/
def storeRemove (store : List GeneratedItem) (id : String) :
    List GeneratedItem :=
  store.eraseP (fun x => x.id = id)

/-- The `IPC.GENERATED_LIST` handler:
`store.list().map(x => ({...x, exists: fs.existsSync(x.path)}))`.
`store.list()` is modelled from the spec as returning the catalog's
records in order. -/
def listGenerated (store : List GeneratedItem) (fs : List FsPath) :
    List GeneratedItem :=
  store.map (fun x => { x with fileExists := decide (x.path ∈ fs) })

/-- Outcome of the `IPC.GENERATED_DELETE` handler. -/
structure DeleteOutcome where
  result : Except JsError Unit
  newStore : List GeneratedItem
  events : List Event
  unlinked : List FsPath
deriving Repr

/-- The `IPC.GENERATED_DELETE` handler.  `unlinkErr` injects the
outcome of `fs.unlinkSync` (`some m` = it throws with message `m`);
it is consulted only when the handler actually unlinks. -/
def deleteGenerated (store : List GeneratedItem) (fs : List FsPath)
    (unlinkErr : Option String) (id : String) : DeleteOutcome :=
  match store.find? (fun x => x.id = id) with
  | none =>
    ⟨.error (makeErr "FILE_NOT_FOUND" "Arquivo não encontrado no histórico."
        none none), store, [], []⟩
  | some found =>
    if found.path ∈ fs then
      match unlinkErr with
      | some m =>
        ⟨.error (makeErr "FILE_DELETE_FAILED"
            "Não foi possível apagar o arquivo." (some m) none), store, [], []⟩
      | none =>
        ⟨.ok (), storeRemove store id, [Event.generatedChanged "DELETED"],
          [found.path]⟩
    else
      ⟨.ok (), storeRemove store id, [Event.generatedChanged "DELETED"], []⟩

/-- Outcome of the `IPC.GENERATED_RENAME` handler.  `fsRenames` records
the `fs.renameSync` calls performed. -/
structure RenameOutcome where
  result : Except JsError GeneratedItem
  newStore : List GeneratedItem
  events : List Event
  fsRenames : List (FsPath × FsPath)
deriving Repr

/-- The `IPC.GENERATED_RENAME` handler.  `sanitize` stands for
`sanitizeBaseName` (utility source not in the repository snapshot);
`renameErr` injects the outcome of `fs.renameSync`. -/
def renameGenerated (store : List GeneratedItem) (fs : List FsPath)
    (sanitize : String → String) (renameErr : Option String)
    (id : String) (newBaseName : String) : RenameOutcome :=
  match store.find? (fun x => x.id = id) with
  | none =>
    ⟨.error (makeErr "FILE_NOT_FOUND" "Arquivo não encontrado no histórico."
        none none), store, [], []⟩
  | some found =>
    if found.path ∈ fs then
      let base := sanitize newBaseName
      if base = "" then
        ⟨.error (makeErr "VALIDATION_ERROR" "Nome inválido." none none),
          store, [], []⟩
      else
        let newPath : FsPath := ⟨found.path.dir, base, found.path.ext⟩
        let finalPath := resolveNonCollidingPath fs newPath
        match renameErr with
        | some m =>
          ⟨.error (makeErr "FILE_RENAME_FAILED"
              "Não foi possível renomear o arquivo." (some m) none),
            store, [], []⟩
        | none =>
          let updated : GeneratedItem :=
            { found with path := finalPath, fileName := basename finalPath,
                         fileExists := true }
          ⟨.ok updated, storeUpdate store id (fun _ => updated),
            [Event.generatedChanged "RENAMED"], [(found.path, finalPath)]⟩
    else
      ⟨.error (makeErr "FILE_NOT_FOUND" "Arquivo não existe mais no disco."
          none none), store, [], []⟩

/-- C5.  Deleting a catalogued record whose file is no longer on disk
never raises `FILE_DELETE_FAILED` (the unlink outcome is irrelevant):
it removes the record, emits a DELETED artifact-changed notification,
unlinks nothing, and succeeds. -/
theorem deleteGenerated_missing_file (store : List GeneratedItem)
    (fs : List FsPath) (unlinkErr : Option String) (id : String)
    (found : GeneratedItem)
    (hfind : store.find? (fun x => x.id = id) = some found)
    (hgone : found.path ∉ fs) :
    (deleteGenerated store fs unlinkErr id).result = .ok () ∧
      (deleteGenerated store fs unlinkErr id).newStore = storeRemove store id ∧
      (deleteGenerated store fs unlinkErr id).events =
        [Event.generatedChanged "DELETED"] ∧
      (deleteGenerated store fs unlinkErr id).unlinked = [] := by
  simp [deleteGenerated, hfind, hgone]

/-- Closed instance of `deleteGenerated_missing_file` on a one-record
catalog whose file is absent from disk, with a failing unlink
injected. -/
theorem deleteGenerated_missing_file_witness :
    (deleteGenerated
        [{ id := "a", path := ⟨"d", "x", ".srt"⟩, fileName := "x.srt",
           format := SubtitleFormat.srt, language := some "pt",
           modelId := some "small", createdAtISO := "t",
           fileExists := true }]
        [] (some "EPERM") "a").result = .ok () ∧
      (deleteGenerated
        [{ id := "a", path := ⟨"d", "x", ".srt"⟩, fileName := "x.srt",
           format := SubtitleFormat.srt, language := some "pt",
           modelId := some "small", createdAtISO := "t",
           fileExists := true }]
        [] (some "EPERM") "a").newStore =
        storeRemove
          [{ id := "a", path := ⟨"d", "x", ".srt"⟩, fileName := "x.srt",
             format := SubtitleFormat.srt, language := some "pt",
             modelId := some "small", createdAtISO := "t",
             fileExists := true }] "a" ∧
      (deleteGenerated
        [{ id := "a", path := ⟨"d", "x", ".srt"⟩, fileName := "x.srt",
           format := SubtitleFormat.srt, language := some "pt",
           modelId := some "small", createdAtISO := "t",
           fileExists := true }]
        [] (some "EPERM") "a").events =
        [Event.generatedChanged "DELETED"] ∧
      (deleteGenerated
        [{ id := "a", path := ⟨"d", "x", ".srt"⟩, fileName := "x.srt",
           format := SubtitleFormat.srt, language := some "pt",
           modelId := some "small", createdAtISO := "t",
           fileExists := true }]
        [] (some "EPERM") "a").unlinked = [] :=
  deleteGenerated_missing_file
    [{ id := "a", path := ⟨"d", "x", ".srt"⟩, fileName := "x.srt",
       format := SubtitleFormat.srt, language := some "pt",
       modelId := some "small", createdAtISO := "t", fileExists := true }]
    [] (some "EPERM") "a"
    { id := "a", path := ⟨"d", "x", ".srt"⟩, fileName := "x.srt",
      format := SubtitleFormat.srt, language := some "pt",
      modelId := some "small", createdAtISO := "t", fileExists := true }
    (by decide) (by decide)

/-- C7.  Rename fails `FILE_NOT_FOUND` when no record matches,
`FILE_NOT_FOUND` when the record's file vanished from disk, and
`VALIDATION_ERROR` when the sanitized base name is empty; in each case
before any filesystem rename, store update, or event emission. -/
theorem renameGenerated_precondition_failures (store : List GeneratedItem)
    (fs : List FsPath) (sanitize : String → String)
    (renameErr : Option String) (id : String) (newBaseName : String) :
    (store.find? (fun x => x.id = id) = none →
      renameGenerated store fs sanitize renameErr id newBaseName =
        ⟨.error (makeErr "FILE_NOT_FOUND"
            "Arquivo não encontrado no histórico." none none),
          store, [], []⟩) ∧
    (∀ found, store.find? (fun x => x.id = id) = some found →
      found.path ∉ fs →
      renameGenerated store fs sanitize renameErr id newBaseName =
        ⟨.error (makeErr "FILE_NOT_FOUND"
            "Arquivo não existe mais no disco." none none),
          store, [], []⟩) ∧
    (∀ found, store.find? (fun x => x.id = id) = some found →
      found.path ∈ fs → sanitize newBaseName = "" →
      renameGenerated store fs sanitize renameErr id newBaseName =
        ⟨.error (makeErr "VALIDATION_ERROR" "Nome inválido." none none),
          store, [], []⟩) := by
  refine ⟨fun hnone => ?_, fun found hfind hgone => ?_, fun found hfind hdisk hempty => ?_⟩
  · unfold renameGenerated
    rw [hnone]
  · unfold renameGenerated
    rw [hfind]
    simp only [if_neg hgone]
  · simp [renameGenerated, hfind, hdisk, hempty]

/-- Closed instance of `renameGenerated_precondition_failures`: an
unknown identifier on an empty catalog yields `FILE_NOT_FOUND` with no
side effect. -/
theorem renameGenerated_precondition_failures_witness :
    renameGenerated [] [] (fun s => s) none "ghost" "new" =
      ⟨.error (makeErr "FILE_NOT_FOUND"
          "Arquivo não encontrado no histórico." none none), [], [], []⟩ :=
  (renameGenerated_precondition_failures [] [] (fun s => s) none "ghost"
      "new").1 rfl

/-- C8.  Listing returns, at every index, the stored record with its
existence flag overwritten by a fresh filesystem check of that record's
path; consequently the stored flags are irrelevant to the output. -/
theorem listGenerated_recomputes_existence (store : List GeneratedItem)
    (fs : List FsPath) (i : Nat) (flags : GeneratedItem → Bool) :
    (listGenerated store fs)[i]? =
        (store[i]?).map
          (fun x => { x with fileExists := decide (x.path ∈ fs) }) ∧
      listGenerated
          (store.map (fun x => { x with fileExists := flags x })) fs =
        listGenerated store fs := by
  constructor
  · simp [listGenerated]
  · simp only [listGenerated, List.map_map]
    rfl

/-- The resolver never touches the directory or the extension, and the
base name is either the requested one or the requested one with a
suffix `" (i)"`, `1 ≤ i ≤ 999`. -/
theorem resolveNonCollidingPath_shape (fs : List FsPath) (p : FsPath) :
    (resolveNonCollidingPath fs p).dir = p.dir ∧
      (resolveNonCollidingPath fs p).ext = p.ext ∧
      ((resolveNonCollidingPath fs p).base = p.base ∨
        ∃ i, 1 ≤ i ∧ i ≤ 999 ∧
          (resolveNonCollidingPath fs p).base =
            p.base ++ " (" ++ toString i ++ ")") := by
  unfold resolveNonCollidingPath
  by_cases hp : p ∈ fs
  · rw [if_pos hp]
    rcases hf : (List.range' 1 999).find? (fun i => candidate p i ∉ fs)
      with _ | i
    · exact ⟨rfl, rfl, Or.inl rfl⟩
    · obtain ⟨_, hle, hlt, _⟩ :=
        (find?_range'_spec (fun i => candidate p i ∉ fs) 999 1).1 i hf
      exact ⟨rfl, rfl, Or.inr ⟨i, hle, by omega, rfl⟩⟩
  · rw [if_neg hp]
    exact ⟨rfl, rfl, Or.inl rfl⟩

/-- C9.  A successful rename changes only the record's `path` and
`fileName` (plus normalising the derived existence flag to `true`): the
new path keeps the old directory and extension, its base name is the
sanitized request possibly with a collision suffix, `fileName` matches
the new path, and `id`, `format`, `language`, `modelId`,
`createdAtISO` are unchanged; the store receives exactly that updated
record. -/
theorem renameGenerated_frame (store : List GeneratedItem)
    (fs : List FsPath) (sanitize : String → String)
    (renameErr : Option String) (id : String) (newBaseName : String)
    (found u : GeneratedItem)
    (hfind : store.find? (fun x => x.id = id) = some found)
    (hok : (renameGenerated store fs sanitize renameErr id newBaseName).result
      = Except.ok u) :
    u.id = found.id ∧ u.format = found.format ∧
      u.language = found.language ∧ u.modelId = found.modelId ∧
      u.createdAtISO = found.createdAtISO ∧
      u.path.dir = found.path.dir ∧ u.path.ext = found.path.ext ∧
      u.fileName = basename u.path ∧
      (u.path.base = sanitize newBaseName ∨
        ∃ i, 1 ≤ i ∧ i ≤ 999 ∧
          u.path.base = sanitize newBaseName ++ " (" ++ toString i ++ ")") ∧
      u.fileExists = true ∧
      (renameGenerated store fs sanitize renameErr id newBaseName).newStore =
        storeUpdate store id (fun _ => u) := by
  by_cases hdisk : found.path ∈ fs
  · by_cases hempty : sanitize newBaseName = ""
    · exfalso
      simp [renameGenerated, hfind, hdisk, hempty] at hok
    · rcases hre : renameErr with _ | m
      · have hshape := resolveNonCollidingPath_shape fs
          ⟨found.path.dir, sanitize newBaseName, found.path.ext⟩
        simp [renameGenerated, hfind, hdisk, hempty, hre] at hok
        obtain ⟨hdir, hext, hbase⟩ := hshape
        subst hok
        refine ⟨rfl, rfl, rfl, rfl, rfl, hdir, hext, rfl, ?_, rfl, ?_⟩
        · simpa using hbase
        · simp [renameGenerated, hfind, hdisk, hempty]
      · exfalso
        simp [renameGenerated, hfind, hdisk, hempty, hre] at hok
  · exfalso
    simp [renameGenerated, hfind, hdisk] at hok

/-- A concrete one-record catalog entry used by closed instances. -/
def itemX : GeneratedItem :=
  { id := "a", path := ⟨"d", "x", ".srt"⟩, fileName := "x.srt",
    format := SubtitleFormat.srt, language := some "pt",
    modelId := some "small", createdAtISO := "t", fileExists := true }

/-- `itemX` after a successful rename to `novo`. -/
def itemNovo : GeneratedItem :=
  { itemX with path := ⟨"d", "novo", ".srt"⟩, fileName := "novo.srt" }

/-- Closed instance of `renameGenerated_frame`: renaming the only
record of a catalog to `novo` keeps the identifier and the creation
timestamp. -/
theorem renameGenerated_frame_witness :
    [itemX].find? (fun x => x.id = "a") = some itemX ∧
      (renameGenerated [itemX] [⟨"d", "x", ".srt"⟩] (fun s => s) none "a"
          "novo").result = Except.ok itemNovo ∧
      itemNovo.id = itemX.id ∧ itemNovo.createdAtISO = itemX.createdAtISO := by
  have h := renameGenerated_frame [itemX] [⟨"d", "x", ".srt"⟩] (fun s => s)
    none "a" "novo" itemX itemNovo (by rfl) (by rfl)
  exact ⟨by rfl, by rfl, h.1, h.2.2.2.2.1⟩

/-- `StartJobRequest` from the shared DTOs.  `language` and `modelId`
are `Option String` (absent or empty are both handled by the handler's
`||` defaults); `granularity` is optional in the DTO itself. -/
structure StartJobRequest where
  audioPath : String
  language : Option String
  modelId : Option String
  format : SubtitleFormat
  outputPath : FsPath
  granularity : Option Granularity
deriving DecidableEq, Repr

/-- The argument record passed to `WhisperRunner.run`. -/
structure RunParams where
  audioPath : String
  language : String
  model : String
  granularity : Granularity
deriving DecidableEq, Repr

/-- Successful runner resolution: the path of the produced `.srt`. -/
structure RunnerOk where
  srtPath : FsPath
deriving DecidableEq, Repr

/-- Outcomes of the host operations awaited inside the `JOB_START`
try-block, injected as parameters: the runner resolution, the
`convertSrtFileToAss` call, the `fs.copyFileSync` call, `store.add`,
and the `fs.readFileSync` + `parseSrt` preview (an `Option JsError` is
`some e` when the operation throws `e`). -/
structure JobEnv where
  runnerResult : Except JsError RunnerOk
  convertErr : Option JsError
  copyErr : Option JsError
  storeAddErr : Option JsError
  previewResult : Except JsError (List Cue)

/-- Model of `v || d` on an optional string: the default replaces both
an absent and an empty value. -/
def orDefault (v : Option String) (d : String) : String :=
  match v with
  | none => d
  | some s => if s = "" then d else s

/-- The structured error the `JOB_START` catch-block emits:
`makeErr("WHISPER_FAILED", "Falha ao transcrever com Whisper.",
e?.message)`. -/
def wrapWhisperErr (e : JsError) : AppErrorDTO :=
  { code := "WHISPER_FAILED", message := "Falha ao transcrever com Whisper.",
    details := some e.message, actionHint := none }

/-- Observable outcome of one `IPC.JOB_START` invocation: the events
emitted to the window, the handler's resolution (`ok jobId` or the
thrown error), the `WhisperRunner.run` invocations with their
arguments, whether a runner was instantiated at all, and the records
passed to `store.add`. -/
structure StartOutcome where
  events : List Event
  result : Except JsError String
  runCalls : List RunParams
  runnerCreated : Bool
  storeAdds : List GeneratedItem

/-- The `IPC.JOB_START` handler.  `jobId`, `itemId` stand for the two
`crypto.randomUUID()` draws and `nowISO` for
`new Date().toISOString()`. -/
def startJob (jobId : String) (itemId : String) (nowISO : String)
    (req : StartJobRequest) (env : JobEnv) : StartOutcome :=
  if req.audioPath = "" then
    { events := []
      result := .error (makeErr "AUDIO_NOT_SELECTED" "Selecione um áudio."
        none (some "PICK_AUDIO"))
      runCalls := [], runnerCreated := false, storeAdds := [] }
  else if req.outputPath = FsPath.empty then
    { events := []
      result := .error (makeErr "OUTPUT_PATH_REQUIRED"
        "Escolha onde salvar antes de gerar." none (some "CHOOSE_OUTPUT"))
      runCalls := [], runnerCreated := false, storeAdds := [] }
  else
    let ev := [Event.progress jobId Step.PREPARING
                 "Validando arquivos e modelo...",
               Event.progress jobId Step.TRANSCRIBING
                 "Transcrevendo áudio (whisper)..."]
    let run : RunParams :=
      { audioPath := req.audioPath
        language := orDefault req.language "pt"
        model := orDefault req.modelId "small"
        granularity := req.granularity.getD Granularity.MEDIUM }
    match env.runnerResult with
    | Except.error e =>
      { events := ev ++ [Event.jobError jobId (wrapWhisperErr e)]
        result := .error e, runCalls := [run], runnerCreated := true
        storeAdds := [] }
    | Except.ok _res =>
      let copyOutcome : Option JsError :=
        if req.format = SubtitleFormat.srt then env.copyErr
        else
          match env.convertErr with
          | some e => some e
          | none => env.copyErr
      match copyOutcome with
      | some e =>
        { events := ev ++ [Event.jobError jobId (wrapWhisperErr e)]
          result := .error e, runCalls := [run], runnerCreated := true
          storeAdds := [] }
      | none =>
        let ev2 := ev ++
          [Event.progress jobId Step.CONVERTING "Preparando legenda...",
           Event.progress jobId Step.SAVING "Salvando arquivo..."]
        let created : GeneratedItem :=
          { id := itemId, path := req.outputPath
            fileName := basename req.outputPath, format := req.format
            language := req.language, modelId := req.modelId
            createdAtISO := nowISO, fileExists := true }
        match env.storeAddErr with
        | some e =>
          { events := ev2 ++ [Event.jobError jobId (wrapWhisperErr e)]
            result := .error e, runCalls := [run], runnerCreated := true
            storeAdds := [] }
        | none =>
          let ev3 := ev2 ++ [Event.generatedChanged "CREATED"]
          match env.previewResult with
          | Except.error e =>
            { events := ev3 ++ [Event.jobError jobId (wrapWhisperErr e)]
              result := .error e, runCalls := [run], runnerCreated := true
              storeAdds := [created] }
          | Except.ok preview =>
            { events := ev3 ++
                [Event.jobDone jobId itemId created.path created.fileName
                   preview,
                 Event.progress jobId Step.DONE "Concluído."]
              result := Except.ok jobId, runCalls := [run]
              runnerCreated := true, storeAdds := [created] }

/-- The steps of the progress events a `JOB_START` outcome emitted for
the given job, in emission order. -/
def progressSteps (jobId : String) (o : StartOutcome) : List Step :=
  o.events.filterMap (fun ev =>
    match ev with
    | Event.progress j s _ => if j = jobId then some s else none
    | _ => none)

/-- The job-error events a `JOB_START` outcome emitted, in order. -/
def errorEvents (o : StartOutcome) : List (String × AppErrorDTO) :=
  o.events.filterMap (fun ev =>
    match ev with
    | Event.jobError j err => some (j, err)
    | _ => none)

/-- Outcome of one `IPC.JOB_CANCEL` invocation: the handler's
resolution, the registry afterwards, which runners had `cancel()`
invoked, and the events emitted (none).  `WhisperRunner.cancel` is
modelled from the spec: it is a safe no-op that never throws, so the
handler's resolution is always `ok`. -/
structure CancelOutcome where
  result : Except JsError Unit
  newRegistry : List String
  cancelled : List String
  events : List Event
deriving Repr

/-- The `IPC.JOB_CANCEL` handler over the active-runner registry
(modelled by its list of job identifier keys): a registered runner is
cancelled and deregistered, an unknown identifier is a no-op; either
way the handler resolves `ok` and emits nothing. -/
def cancelJob (registry : List String) (jobId : String) : CancelOutcome :=
  if jobId ∈ registry then
    ⟨Except.ok (), registry.erase jobId, [jobId], []⟩
  else
    ⟨Except.ok (), registry, [], []⟩

/-- A well-formed request for the engine's native format. -/
def reqSrt : StartJobRequest :=
  { audioPath := "a.mp3", language := some "pt", modelId := some "small",
    format := SubtitleFormat.srt, outputPath := ⟨"d", "out", ".srt"⟩,
    granularity := none }

/-- An environment in which every awaited operation succeeds. -/
def okEnv : JobEnv :=
  { runnerResult := Except.ok ⟨⟨"tmp", "whisper", ".srt"⟩⟩,
    convertErr := none, copyErr := none, storeAddErr := none,
    previewResult := Except.ok [] }

/-- A host error with no structured payload, as thrown by the runner
or by `fs`. -/
def runnerBoom : JsError := { message := "boom", appError := none }

/-- An environment in which the runner fails with `runnerBoom`. -/
def boomEnv : JobEnv := { okEnv with runnerResult := Except.error runnerBoom }

/-- C1 counterexample.  A successful run requesting the engine's
native format `srt` (no conversion required) still emits the
CONVERTING progress event, refuting "CONVERTING present iff the
requested format differs from the native format". -/
theorem startJob_converting_emitted_for_srt :
    (startJob "J" "I" "T" reqSrt okEnv).result = Except.ok "J" ∧
      reqSrt.format = SubtitleFormat.srt ∧
      Step.CONVERTING ∈ progressSteps "J" (startJob "J" "I" "T" reqSrt okEnv) := by
  refine ⟨rfl, rfl, ?_⟩
  decide

/-- C1 (amended).  Every successful `JOB_START` run emits exactly
PREPARING, TRANSCRIBING, CONVERTING, SAVING, DONE in that order, with
CONVERTING always present regardless of the requested format. -/
theorem startJob_success_steps (jobId : String) (itemId : String)
    (nowISO : String) (req : StartJobRequest) (env : JobEnv) (j : String)
    (hok : (startJob jobId itemId nowISO req env).result = Except.ok j) :
    progressSteps jobId (startJob jobId itemId nowISO req env) =
      [Step.PREPARING, Step.TRANSCRIBING, Step.CONVERTING, Step.SAVING,
        Step.DONE] := by
  by_cases h1 : req.audioPath = ""
  · exfalso; simp [startJob, h1] at hok
  by_cases h2 : req.outputPath = FsPath.empty
  · exfalso; simp [startJob, h1, h2] at hok
  rcases henv : env.runnerResult with e0 | res
  · exfalso; simp [startJob, h1, h2, henv] at hok
  by_cases hfmt : req.format = SubtitleFormat.srt <;>
  rcases hcv : env.convertErr with _ | ce <;>
  rcases hcp : env.copyErr with _ | pe <;>
  rcases hsa : env.storeAddErr with _ | se <;>
  rcases hpv : env.previewResult with e2 | pv <;>
  simp [startJob, h1, h2, henv, hfmt, hcv, hcp, hsa, hpv] at hok <;>
  simp [progressSteps, startJob, h1, h2, henv, hfmt, hcv, hcp, hsa, hpv]

/-- Closed instance of `startJob_success_steps` on a fully successful
run. -/
theorem startJob_success_steps_witness :
    (startJob "J" "I" "T" reqSrt okEnv).result = Except.ok "J" ∧
      progressSteps "J" (startJob "J" "I" "T" reqSrt okEnv) =
        [Step.PREPARING, Step.TRANSCRIBING, Step.CONVERTING, Step.SAVING,
          Step.DONE] :=
  ⟨rfl, startJob_success_steps "J" "I" "T" reqSrt okEnv "J" rfl⟩

/-- C2 counterexample.  When the runner throws a bare host error, the
emitted error event carries the fixed `WHISPER_FAILED` wrapper while
the handler propagates the original error, whose structured payload is
absent — the two channels do not carry the same structured error. -/
theorem startJob_error_channels_differ :
    errorEvents (startJob "J" "I" "T" reqSrt boomEnv) =
        [("J", wrapWhisperErr runnerBoom)] ∧
      (startJob "J" "I" "T" reqSrt boomEnv).result =
        Except.error runnerBoom ∧
      runnerBoom.appError ≠ some (wrapWhisperErr runnerBoom) := by
  refine ⟨?_, rfl, ?_⟩
  · decide
  · decide

/-- C2 (amended).  Any post-validation `JOB_START` failure emits
exactly one error event, whose structured error is the `WHISPER_FAILED`
wrapper carrying the propagated error's message as detail; the
propagated failure itself is the original unwrapped error, so the two
channels agree on failing but not necessarily on the structured
payload. -/
theorem startJob_error_event_wraps_thrown (jobId : String)
    (itemId : String) (nowISO : String) (req : StartJobRequest)
    (env : JobEnv) (e : JsError) (h1 : req.audioPath ≠ "")
    (h2 : req.outputPath ≠ FsPath.empty)
    (herr : (startJob jobId itemId nowISO req env).result = Except.error e) :
    errorEvents (startJob jobId itemId nowISO req env) =
      [(jobId, wrapWhisperErr e)] := by
  rcases henv : env.runnerResult with e0 | res
  · simp [startJob, h1, h2, henv] at herr
    simp [errorEvents, startJob, h1, h2, henv, herr]
  by_cases hfmt : req.format = SubtitleFormat.srt <;>
  rcases hcv : env.convertErr with _ | ce <;>
  rcases hcp : env.copyErr with _ | pe <;>
  rcases hsa : env.storeAddErr with _ | se <;>
  rcases hpv : env.previewResult with e2 | pv <;>
  simp [startJob, h1, h2, henv, hfmt, hcv, hcp, hsa, hpv] at herr <;>
  simp [errorEvents, startJob, h1, h2, henv, hfmt, hcv, hcp, hsa, hpv, herr]

/-- Closed instance of `startJob_error_event_wraps_thrown` on a failing
runner. -/
theorem startJob_error_event_wraps_thrown_witness :
    reqSrt.audioPath ≠ "" ∧ reqSrt.outputPath ≠ FsPath.empty ∧
      (startJob "J" "I" "T" reqSrt boomEnv).result =
        Except.error runnerBoom ∧
      errorEvents (startJob "J" "I" "T" reqSrt boomEnv) =
        [("J", wrapWhisperErr runnerBoom)] :=
  ⟨by decide, by decide, rfl,
    startJob_error_event_wraps_thrown "J" "I" "T" reqSrt boomEnv runnerBoom
      (by decide) (by decide) rfl⟩

/-- C4.  An empty audio path fails `AUDIO_NOT_SELECTED`, and a
non-empty audio path with an empty output path fails
`OUTPUT_PATH_REQUIRED`; in both cases no event is emitted, no runner is
instantiated or invoked, and the store receives nothing. -/
theorem startJob_validation_no_side_effects (jobId : String)
    (itemId : String) (nowISO : String) (req : StartJobRequest)
    (env : JobEnv) :
    (req.audioPath = "" →
      startJob jobId itemId nowISO req env =
        { events := []
          result := .error (makeErr "AUDIO_NOT_SELECTED"
            "Selecione um áudio." none (some "PICK_AUDIO"))
          runCalls := [], runnerCreated := false, storeAdds := [] }) ∧
    (req.audioPath ≠ "" → req.outputPath = FsPath.empty →
      startJob jobId itemId nowISO req env =
        { events := []
          result := .error (makeErr "OUTPUT_PATH_REQUIRED"
            "Escolha onde salvar antes de gerar." none
            (some "CHOOSE_OUTPUT"))
          runCalls := [], runnerCreated := false, storeAdds := [] }) := by
  constructor
  · intro h1
    unfold startJob
    rw [if_pos h1]
  · intro h1 h2
    unfold startJob
    rw [if_neg h1, if_pos h2]

/-- `reqSrt` with the audio path missing. -/
def reqNoAudio : StartJobRequest := { reqSrt with audioPath := "" }

/-- Closed instance of `startJob_validation_no_side_effects` for a
missing audio path. -/
theorem startJob_validation_no_side_effects_witness :
    reqNoAudio.audioPath = "" ∧
      startJob "J" "I" "T" reqNoAudio okEnv =
        { events := []
          result := .error (makeErr "AUDIO_NOT_SELECTED"
            "Selecione um áudio." none (some "PICK_AUDIO"))
          runCalls := [], runnerCreated := false, storeAdds := [] } :=
  ⟨rfl,
    (startJob_validation_no_side_effects "J" "I" "T" reqNoAudio okEnv).1 rfl⟩

/-- C10.  Once validation passes, the runner is invoked exactly once,
with the absent-or-empty language defaulted to `pt`, the
absent-or-empty model defaulted to `small`, and the absent granularity
defaulted to `MEDIUM`. -/
theorem startJob_runner_defaults (jobId : String) (itemId : String)
    (nowISO : String) (req : StartJobRequest) (env : JobEnv)
    (h1 : req.audioPath ≠ "") (h2 : req.outputPath ≠ FsPath.empty) :
    (startJob jobId itemId nowISO req env).runCalls =
        [{ audioPath := req.audioPath
           language := orDefault req.language "pt"
           model := orDefault req.modelId "small"
           granularity := req.granularity.getD Granularity.MEDIUM }] ∧
      orDefault none "pt" = "pt" ∧ orDefault (some "") "pt" = "pt" ∧
      (∀ s, s ≠ "" → orDefault (some s) "pt" = s) ∧
      orDefault none "small" = "small" ∧
      orDefault (some "") "small" = "small" ∧
      (∀ s, s ≠ "" → orDefault (some s) "small" = s) ∧
      (none : Option Granularity).getD Granularity.MEDIUM =
        Granularity.MEDIUM ∧
      (∀ g, (some g).getD Granularity.MEDIUM = g) := by
  refine ⟨?_, rfl, rfl, fun s hs => by simp [orDefault, hs], rfl, rfl,
    fun s hs => by simp [orDefault, hs], rfl, fun g => rfl⟩
  rcases henv : env.runnerResult with e0 | res <;>
  by_cases hfmt : req.format = SubtitleFormat.srt <;>
  rcases hcv : env.convertErr with _ | ce <;>
  rcases hcp : env.copyErr with _ | pe <;>
  rcases hsa : env.storeAddErr with _ | se <;>
  rcases hpv : env.previewResult with e2 | pv <;>
  simp [startJob, h1, h2, henv, hfmt, hcv, hcp, hsa, hpv]

/-- A request with the language absent, the model empty, and no
granularity preset. -/
def reqDefaults : StartJobRequest :=
  { audioPath := "a.mp3", language := none, modelId := some "",
    format := SubtitleFormat.ass, outputPath := ⟨"d", "o", ".ass"⟩,
    granularity := none }

/-- Closed instance of `startJob_runner_defaults`: the runner receives
`pt`, `small` and `MEDIUM`. -/
theorem startJob_runner_defaults_witness :
    reqDefaults.audioPath ≠ "" ∧ reqDefaults.outputPath ≠ FsPath.empty ∧
      (startJob "J" "I" "T" reqDefaults okEnv).runCalls =
        [{ audioPath := "a.mp3", language := "pt", model := "small",
           granularity := Granularity.MEDIUM }] := by
  refine ⟨by decide, by decide, ?_⟩
  have h :=
    (startJob_runner_defaults "J" "I" "T" reqDefaults okEnv (by decide)
      (by decide)).1
  simpa [reqDefaults, orDefault] using h

/-- C6.  `JOB_CANCEL` always resolves `ok` and emits no event; a
registered runner is cancelled and deregistered at once, an unknown
identifier is a no-op; on a duplicate-free registry an immediate second
call for the same identifier cancels nothing, changes nothing, and
still resolves `ok`. -/
theorem cancelJob_safe_idempotent (registry : List String)
    (jobId : String) :
    (cancelJob registry jobId).result = Except.ok () ∧
      (cancelJob registry jobId).events = [] ∧
      (jobId ∈ registry →
        (cancelJob registry jobId).cancelled = [jobId] ∧
        (cancelJob registry jobId).newRegistry = registry.erase jobId) ∧
      (jobId ∉ registry →
        (cancelJob registry jobId).cancelled = [] ∧
        (cancelJob registry jobId).newRegistry = registry) ∧
      (registry.Nodup →
        cancelJob (cancelJob registry jobId).newRegistry jobId =
          ⟨Except.ok (), (cancelJob registry jobId).newRegistry, [], []⟩) := by
  by_cases hmem : jobId ∈ registry
  · refine ⟨by simp [cancelJob, hmem], by simp [cancelJob, hmem],
      fun _ => ⟨by simp [cancelJob, hmem], by simp [cancelJob, hmem]⟩,
      fun h => absurd hmem h, fun hnd => ?_⟩
    have hni : jobId ∉ registry.erase jobId := by
      intro hcontra
      rcases (List.Nodup.mem_erase_iff hnd).1 hcontra with ⟨hne, _⟩
      exact hne rfl
    simp [cancelJob, hmem, hni]
  · exact ⟨by simp [cancelJob, hmem], by simp [cancelJob, hmem],
      fun h => absurd h hmem,
      fun _ => ⟨by simp [cancelJob, hmem], by simp [cancelJob, hmem]⟩,
      fun _ => by simp [cancelJob, hmem]⟩

/-- Closed instance of `cancelJob_safe_idempotent`: cancelling job `J`
twice in a row on the registry `[J]`. -/
theorem cancelJob_safe_idempotent_witness :
    ("J" ∈ (["J"] : List String)) ∧ (["J"] : List String).Nodup ∧
      (cancelJob ["J"] "J").cancelled = ["J"] ∧
      cancelJob (cancelJob ["J"] "J").newRegistry "J" =
        ⟨Except.ok (), (cancelJob ["J"] "J").newRegistry, [], []⟩ := by
  obtain ⟨h1, h2, h3, h4, h5⟩ := cancelJob_safe_idempotent ["J"] "J"
  exact ⟨by decide, by decide, (h3 (by decide)).1, h5 (by decide)⟩

end LegendaDesktop
